import Mathlib

/-!
# Upload controller of `static/js/script.js`

A shallow embedding of the tool-selection / upload / download part of the page
script (`script.js`, lines 112-224) together with the properties its
specification states about it.

Modelling conventions:

* The page state read or written by these handlers is one record, `State`.
  Each handler of the script is a function `State → ... → State`.
* Effects that leave the page (the `fetch` call, `a.click()` on the synthetic
  anchor, `console.error`) and calls of `showNotification` are appended to
  trace fields of the state, in program order.
* Every call of `uploadFiles` creates one closure holding `progress` and
  `interval`; the closures live in `State.uploads`, indexed by creation order.
* Callbacks registered with `setTimeout` are kept in `State.timeouts` until the
  event loop fires them.
* `Math.random()` is an input of the tick event.
* A number is the rational it denotes.  The script computes with IEEE 754
  binary64 numbers: every sum and product is rounded by `roundDouble` (round
  to nearest, ties to even).  Infinities and NaN do not arise from the
  arithmetic of the script and are not represented.
* `progressBar.style.width` is always assigned a percentage; the number in
  front of the `%` sign is stored.
* Assigning to `textContent`, `href` or `download` stores a string; the
  conversions are `jsToString` and `nullableDOMString`.
-/

namespace ProConverter

/-! ## JavaScript values -/

/-- A JavaScript value as it can appear in a property of the parsed response.
`object` stands for any nested object or array.  A number and an object carry
`text`, the string the language's `ToString` gives for them (`Number::toString`,
respectively the object's `toString` method); the script defines neither. -/
inductive JSValue where
  | undefined
  | null
  | bool (b : Bool)
  | num (q : ℚ) (text : String)
  | str (s : String)
  | object (text : String)
  deriving DecidableEq, Repr

/-- JavaScript truthiness (`ToBoolean`). -/
def JSValue.truthy : JSValue → Bool
  | .undefined => false
  | .null => false
  | .bool b => b
  | .num q _ => decide (q ≠ 0)
  | .str s => decide (s ≠ "")
  | .object _ => true

/-- JavaScript `ToString`, the conversion applied when a value is assigned to a
`DOMString` or `USVString` attribute such as `a.href` and `a.download`. -/
def jsToString : JSValue → String
  | .undefined => "undefined"
  | .null => "null"
  | .bool true => "true"
  | .bool false => "false"
  | .num _ text => text
  | .str s => s
  | .object text => text

/-- The conversion applied when a value is assigned to the nullable attribute
`textContent`: `null` and `undefined` give the empty string. -/
def nullableDOMString : JSValue → String
  | .undefined => ""
  | .null => ""
  | v => jsToString v

/-- The JavaScript expression `a || b`. -/
def jsOr (a b : JSValue) : JSValue :=
  if a.truthy then a else b

/-- The value `response.json()` resolves with: either a JSON value that is not
an object (`null`, a boolean, a number, a string), or an object given by its
properties.  An array is an object without the properties read here. -/
inductive ResponseData where
  | value (v : JSValue)
  | object (fields : List (String × JSValue))
  deriving DecidableEq, Repr

/-- Property read `data.name`.  `none` is the `TypeError` thrown when `data` is
`null` or `undefined`; a missing property reads as `undefined`. -/
def getProp (data : ResponseData) (name : String) : Option JSValue :=
  match data with
  | .value .undefined => none
  | .value .null => none
  | .value _ => some .undefined
  | .object fields => some ((fields.lookup name).getD .undefined)

/-! ## Binary64 arithmetic -/

/-- Auxiliary for `bitLength`, by recursion on a bound for the number of bits. -/
def bitLengthAux : Nat → Nat → Nat
  | 0, _ => 0
  | bound + 1, n => if n = 0 then 0 else bitLengthAux bound (n / 2) + 1

/-- Number of binary digits of `n` (0 for 0). -/
def bitLength (n : Nat) : Nat :=
  bitLengthAux n n

/-- The fraction `n / d` rounded to the nearest integer, ties to even. -/
def roundHalfEven (n d : Nat) : Nat :=
  let k := n / d
  let r := n % d
  if 2 * r < d then k
  else if d < 2 * r then k + 1
  else if k % 2 = 0 then k else k + 1

/-- The binary exponent of `n / d` for positive `n` and `d`: the integer `e`
with `2 ^ e ≤ n / d < 2 ^ (e + 1)`. -/
def floorLog2 (n d : Nat) : Int :=
  let e0 : Int := (bitLength n : Int) - (bitLength d : Int)
  if 0 ≤ e0 then (if d * 2 ^ e0.toNat ≤ n then e0 else e0 - 1)
  else (if d ≤ n * 2 ^ (-e0).toNat then e0 else e0 - 1)

/-- The binary64 number nearest to `q`, ties to even: 53 significant bits,
smallest spacing `2 ^ (-1074)`.  Overflow to infinity (`|q| ≥ 2 ^ 1024`) is not
represented. -/
def roundDouble (q : ℚ) : ℚ :=
  if q = 0 then 0
  else
    let n := q.num.natAbs
    let d := q.den
    let g : Int := max (floorLog2 n d - 52) (-1074)
    let mag : ℚ :=
      if 0 ≤ g then ((roundHalfEven n (d * 2 ^ g.toNat) * 2 ^ g.toNat : Nat) : ℚ)
      else ((roundHalfEven (n * 2 ^ (-g).toNat) d : Nat) : ℚ) / ((2 ^ (-g).toNat : Nat) : ℚ)
    if q < 0 then -mag else mag

/-! ## Page state -/

/-- A file of a `FileList`. -/
structure File where
  name : String
  size : Nat
  deriving DecidableEq, Repr

/-- The value of one `FormData` entry. -/
inductive FormValue where
  | file (f : File)
  | text (s : String)
  deriving DecidableEq, Repr

/-- One call of `fetch`. -/
structure Request where
  url : String
  method : String
  body : List (String × FormValue)
  deriving DecidableEq, Repr

/-- A `.tool-card` element: its `data-tool` attribute (`dataset.tool`, absent
when `none`), its class list and the text of its `h4`. -/
structure ToolCard where
  dataTool : Option String
  classList : List String
  title : String
  deriving DecidableEq, Repr

/-- The `#successNotification` element. -/
structure NotificationElement where
  iconClassName : String
  background : String
  textContent : String
  classList : List String
  deriving DecidableEq, Repr

/-- The closure variables of one `uploadFiles` call: `progress`, whether the
`interval` timer is still scheduled, and whether the promise chain of the
`fetch` has already run its `then` or `catch` callback. -/
structure Upload where
  progress : ℚ
  intervalActive : Bool
  settled : Bool
  deriving DecidableEq, Repr

/-- A callback waiting in `setTimeout`. -/
inductive Timeout where
  | displayDelay (data : ResponseData)
  | hideNotification
  deriving DecidableEq, Repr

/-- A click on the synthetic anchor: the strings stored in `a.href` and
`a.download`. -/
structure Download where
  href : String
  download : String
  deriving DecidableEq, Repr

/-- The page state used by the upload controller. -/
structure State where
  selectedTool : Option String
  toolCards : List ToolCard
  uploadHeading : String
  loadingOverlayDisplay : String
  progressContainerDisplay : String
  progressBarWidth : ℚ
  notification : NotificationElement
  uploads : List Upload
  timeouts : List Timeout
  requests : List Request
  notices : List (JSValue × String)
  downloads : List Download
  consoleErrors : Nat
  uncaughtErrors : Nat
  deriving DecidableEq, Repr

/-- `classList.add(c)`. -/
def classListAdd (cl : List String) (c : String) : List String :=
  if c ∈ cl then cl else cl ++ [c]

/-- `classList.remove(c)`. -/
def classListRemove (cl : List String) (c : String) : List String :=
  cl.filter (fun x => decide (x ≠ c))

/-! ## Handlers -/

/-- `showNotification(message, type = 'success')`, lines 205-224. -/
def showNotification (s : State) (message : JSValue) (type : String := "success") : State :=
  let n := s.notification
  let n :=
    if type = "success" then
      { n with iconClassName := "fas fa-check-circle"
               background := "linear-gradient(135deg, #00b09b, #96c93d)" }
    else
      { n with iconClassName := "fas fa-exclamation-circle"
               background := "linear-gradient(135deg, #ff6b6b, #e63946)" }
  let n := { n with textContent := nullableDOMString message
                    classList := classListAdd n.classList "show" }
  { s with notification := n
           timeouts := s.timeouts ++ [Timeout.hideNotification]
           notices := s.notices ++ [(message, type)] }

/-- The click listener of the tool card with index `i`, lines 116-128. -/
def toolCardClick (s : State) (i : Nat) : State :=
  match s.toolCards[i]? with
  | none => s
  | some card =>
    match card.dataTool with
    | none => s
    | some tool =>
      if tool = "" then s
      else
        let cleared := s.toolCards.map
          (fun c => { c with classList := classListRemove c.classList "selected" })
        let clicked : ToolCard :=
          { card with
            classList := classListAdd (classListRemove card.classList "selected") "selected" }
        { s with selectedTool := some tool
                 toolCards := cleared.set i clicked
                 uploadHeading := "Upload files to " ++ card.title }

/-- The string `formData.append('tool', selectedTool)` stores. -/
def toolField : Option String → String
  | none => "null"
  | some t => t

/-- `uploadFiles(files)`, lines 144-169: the synchronous part, up to and
including the `fetch` call.  The new closure is the last entry of `uploads`. -/
def uploadFiles (s : State) (files : List File) : State :=
  let formData : List (String × FormValue) :=
    files.foldl (fun fd f => fd ++ [("files", FormValue.file f)]) []
  let formData := formData ++ [("tool", FormValue.text (toolField s.selectedTool))]
  { s with loadingOverlayDisplay := "flex"
           progressContainerDisplay := "block"
           uploads := s.uploads ++ [{ progress := 0, intervalActive := true, settled := false }]
           requests := s.requests ++ [{ url := "/convert", method := "POST", body := formData }] }

/-- `!selectedTool`. -/
def noToolSelected : Option String → Bool
  | none => true
  | some t => decide (t = "")

/-- `handleFiles(e)` with `files = e.target.files`, lines 131-142. -/
def handleFiles (s : State) (files : List File) : State :=
  if noToolSelected s.selectedTool then
    showNotification s (.str "Please select a tool first") "error"
  else if files.length > 0 then
    uploadFiles s files
  else
    s

/-- `handleDrop(e)` with `files = e.dataTransfer.files`, lines 90-94. -/
def handleDrop (s : State) (files : List File) : State :=
  handleFiles s files

/-- The `setInterval` callback of upload `k`, lines 157-164, run with
`Math.random()` returning `r`.  The product and the sum are binary64
operations. -/
def intervalCallback (s : State) (k : Nat) (r : ℚ) : State :=
  match s.uploads[k]? with
  | none => s
  | some u =>
    let progress := roundDouble (u.progress + roundDouble (r * 30))
    let u :=
      if progress ≥ 100 then { u with progress := 100, intervalActive := false }
      else { u with progress := progress }
    { s with uploads := s.uploads.set k u, progressBarWidth := u.progress }

/-- The `.then(data => ...)` callback of upload `k`, lines 171-193. -/
def thenCallback (s : State) (k : Nat) (data : ResponseData) : State :=
  match s.uploads[k]? with
  | none => s
  | some u =>
    { s with uploads := s.uploads.set k { u with intervalActive := false, settled := true }
             progressBarWidth := 100
             timeouts := s.timeouts ++ [Timeout.displayDelay data] }

/-- The `setTimeout(..., 1000)` callback scheduled by `thenCallback`,
lines 175-192.  Reading `data.success` of `null` throws; the error is not
caught by anything. -/
def displayDelayCallback (s : State) (data : ResponseData) : State :=
  let s := { s with loadingOverlayDisplay := "none"
                    progressContainerDisplay := "none"
                    progressBarWidth := 0 }
  match getProp data "success" with
  | none => { s with uncaughtErrors := s.uncaughtErrors + 1 }
  | some success =>
    if success.truthy then
      let s := showNotification s (.str "File converted successfully!")
      let a : Download :=
        { href := jsToString ((getProp data "download_url").getD .undefined)
          download := jsToString ((getProp data "filename").getD .undefined) }
      { s with downloads := s.downloads ++ [a] }
    else
      showNotification s
        (jsOr ((getProp data "error").getD .undefined) (.str "Conversion failed")) "error"

/-- The `.catch(error => ...)` callback of upload `k`, lines 194-201. -/
def catchCallback (s : State) (k : Nat) : State :=
  match s.uploads[k]? with
  | none => s
  | some u =>
    let s := { s with uploads := s.uploads.set k { u with intervalActive := false, settled := true }
                      loadingOverlayDisplay := "none"
                      progressContainerDisplay := "none"
                      progressBarWidth := 0 }
    let s := showNotification s (.str "An error occurred") "error"
    { s with consoleErrors := s.consoleErrors + 1 }

/-- The `setTimeout(..., 3000)` callback of `showNotification`, lines 221-223. -/
def hideNotificationCallback (s : State) : State :=
  { s with notification :=
      { s.notification with classList := classListRemove s.notification.classList "show" } }

/-! ## Event loop -/

/-- What the browser can deliver to the upload controller. -/
inductive Event where
  | cardClick (i : Nat)
  | change (files : List File)
  | drop (files : List File)
  | tick (k : Nat) (r : ℚ)
  | resolve (k : Nat) (data : ResponseData)
  | reject (k : Nat)
  | timeout (j : Nat)
  deriving DecidableEq, Repr

/-- One turn of the event loop.  An event the browser cannot deliver in `s`
(a tick of a cleared interval, a second settlement of a promise, a timeout that
is not pending) leaves `s` as it is. -/
def step (s : State) : Event → State
  | .cardClick i => toolCardClick s i
  | .change files => handleFiles s files
  | .drop files => handleDrop s files
  | .tick k r =>
    match s.uploads[k]? with
    | some u => if u.intervalActive then intervalCallback s k r else s
    | none => s
  | .resolve k data =>
    match s.uploads[k]? with
    | some u => if u.settled then s else thenCallback s k data
    | none => s
  | .reject k =>
    match s.uploads[k]? with
    | some u => if u.settled then s else catchCallback s k
    | none => s
  | .timeout j =>
    match s.timeouts[j]? with
    | none => s
    | some t =>
      let s := { s with timeouts := s.timeouts.eraseIdx j }
      match t with
      | .displayDelay data => displayDelayCallback s data
      | .hideNotification => hideNotificationCallback s

/-- Delivery of a sequence of events. -/
def run (s : State) (evs : List Event) : State :=
  evs.foldl step s

/-- The page right after load: no tool selected, nothing in flight. -/
def initialState (cards : List ToolCard) : State :=
  { selectedTool := none
    toolCards := cards
    uploadHeading := ""
    loadingOverlayDisplay := "none"
    progressContainerDisplay := "none"
    progressBarWidth := 0
    notification := { iconClassName := "", background := "", textContent := "", classList := [] }
    uploads := []
    timeouts := []
    requests := []
    notices := []
    downloads := []
    consoleErrors := 0
    uncaughtErrors := 0 }

/-! ## Auxiliary lemmas -/

theorem formData_foldl (files : List File) (acc : List (String × FormValue)) :
    files.foldl (fun fd f => fd ++ [("files", FormValue.file f)]) acc
      = acc ++ files.map (fun f => ("files", FormValue.file f)) := by
  induction files generalizing acc with
  | nil => simp
  | cons f fs ih => simp [List.foldl_cons, ih]

theorem not_mem_classListRemove (cl : List String) (c : String) :
    c ∉ classListRemove cl c := by
  simp [classListRemove]

theorem mem_classListAdd (cl : List String) (c : String) :
    c ∈ classListAdd cl c := by
  unfold classListAdd
  split <;> simp_all

theorem getElem?_set_of_some {α : Type} {l : List α} {k : Nat} {a : α} (b : α)
    (h : l[k]? = some a) : (l.set k b)[k]? = some b := by
  have hk : k < l.length := by
    by_contra hcon
    have : l[k]? = none := List.getElem?_eq_none (by omega)
    simp [this] at h
  exact List.getElem?_set_eq_of_lt _ hk

theorem getElem?_append_length {α : Type} (l : List α) (a : α) :
    (l ++ [a])[l.length]? = some a := by
  rw [List.getElem?_append_right (Nat.le_refl _)]
  simp

theorem eraseIdx_append_length {α : Type} (l : List α) (a : α) :
    (l ++ [a]).eraseIdx l.length = l := by
  induction l with
  | nil => rfl
  | cons x xs ih => simp [List.eraseIdx, ih]

theorem run_cons (s : State) (e : Event) (es : List Event) :
    run s (e :: es) = run (step s e) es := rfl

theorem run_append (s : State) (es fs : List Event) :
    run s (es ++ fs) = run (run s es) fs := by
  simp [run, List.foldl_append]

/-- Delivering the response `data` to a pending upload and then letting the
timer scheduled by it fire runs `displayDelayCallback` on the state left by
`thenCallback`, with the fired timer removed. -/
theorem step_resolve_timeout (s : State) (k : Nat) (u : Upload) (data : ResponseData)
    (hk : s.uploads[k]? = some u) (hu : u.settled = false) :
    step (step s (.resolve k data)) (.timeout s.timeouts.length)
      = displayDelayCallback
          { s with uploads := s.uploads.set k { u with intervalActive := false, settled := true }
                   progressBarWidth := 100 } data := by
  simp [step, hk, hu, thenCallback, getElem?_append_length, eraseIdx_append_length]

theorem toolCardClick_uploads (s : State) (i : Nat) :
    (toolCardClick s i).uploads = s.uploads := by
  unfold toolCardClick
  split
  · rfl
  · split
    · rfl
    · split <;> rfl

theorem handleFiles_uploads (s : State) (files : List File) :
    ∃ new : List Upload, (handleFiles s files).uploads = s.uploads ++ new := by
  unfold handleFiles
  split
  · exact ⟨[], by simp [showNotification]⟩
  · split
    · exact ⟨_, rfl⟩
    · exact ⟨[], by simp⟩

theorem displayDelayCallback_uploads (s : State) (data : ResponseData) :
    (displayDelayCallback s data).uploads = s.uploads := by
  unfold displayDelayCallback
  split
  · rfl
  · split <;> rfl

theorem getElem?_append_of_some {α : Type} {l : List α} {k : Nat} {a : α} (m : List α)
    (h : l[k]? = some a) : (l ++ m)[k]? = some a := by
  have hk : k < l.length := by
    by_contra hcon
    have : l[k]? = none := List.getElem?_eq_none (by omega)
    simp [this] at h
  rw [List.getElem?_append_left hk]
  exact h

/-- A cleared interval of upload `k` stays cleared whatever event is delivered. -/
theorem step_keeps_cleared (s : State) (ev : Event) (k : Nat) (u : Upload)
    (hk : s.uploads[k]? = some u) (hu : u.intervalActive = false) :
    ∃ v, (step s ev).uploads[k]? = some v ∧ v.intervalActive = false := by
  cases ev with
  | cardClick i => exact ⟨u, by simp [step, toolCardClick_uploads, hk], hu⟩
  | change files =>
    obtain ⟨new, hnew⟩ := handleFiles_uploads s files
    exact ⟨u, by simp [step, hnew, getElem?_append_of_some new hk], hu⟩
  | drop files =>
    obtain ⟨new, hnew⟩ := handleFiles_uploads s files
    exact ⟨u, by simp [step, handleDrop, hnew, getElem?_append_of_some new hk], hu⟩
  | tick j r =>
    by_cases hjk : j = k
    · subst hjk
      exact ⟨u, by simp [step, hk, hu], hu⟩
    · refine ⟨u, ?_, hu⟩
      simp only [step]
      split
      · split
        · rename_i w hw _
          simp [intervalCallback, hw, List.getElem?_set_ne hjk, hk]
        · exact hk
      · exact hk
  | resolve j data =>
    by_cases hjk : j = k
    · subst hjk
      by_cases hs : u.settled
      · exact ⟨u, by simp [step, hk, hs], hu⟩
      · exact ⟨_, by simp [step, hk, hs, thenCallback, getElem?_set_of_some _ hk]; rfl, rfl⟩
    · refine ⟨u, ?_, hu⟩
      simp only [step]
      split
      · split
        · exact hk
        · rename_i w hw _
          simp [thenCallback, hw, List.getElem?_set_ne hjk, hk]
      · exact hk
  | reject j =>
    by_cases hjk : j = k
    · subst hjk
      by_cases hs : u.settled
      · exact ⟨u, by simp [step, hk, hs], hu⟩
      · exact ⟨_, by
          simp [step, hk, hs, catchCallback, showNotification, getElem?_set_of_some _ hk]; rfl,
          rfl⟩
    · refine ⟨u, ?_, hu⟩
      simp only [step]
      split
      · split
        · exact hk
        · rename_i w hw _
          simp [catchCallback, showNotification, hw, List.getElem?_set_ne hjk, hk]
      · exact hk
  | timeout j =>
    refine ⟨u, ?_, hu⟩
    simp only [step]
    split
    · exact hk
    · split
      · simp [displayDelayCallback_uploads, hk]
      · simp [hideNotificationCallback, hk]

theorem run_keeps_cleared (evs : List Event) (s : State) (k : Nat) (u : Upload)
    (hk : s.uploads[k]? = some u) (hu : u.intervalActive = false) :
    ∃ v, (run s evs).uploads[k]? = some v ∧ v.intervalActive = false := by
  induction evs generalizing s u with
  | nil => exact ⟨u, hk, hu⟩
  | cons e es ih =>
    obtain ⟨v, hv, hv2⟩ := step_keeps_cleared s e k u hk hu
    rw [run_cons]
    exact ih (step s e) v hv hv2

theorem roundDouble_nonneg (q : ℚ) (h : 0 ≤ q) : 0 ≤ roundDouble q := by
  unfold roundDouble
  split
  · exact le_refl _
  · simp only
    rw [if_neg (not_lt.mpr h)]
    split
    · exact Nat.cast_nonneg _
    · exact div_nonneg (Nat.cast_nonneg _) (Nat.cast_nonneg _)

/-- Binary64 rounding on sample values: 0.875 and 26.25 are representable, the
product of the binary64 number nearest to 0.1 with 30 is exactly 3, and the
product of 0.6666666666666666 with 30 is exactly 20. -/
theorem roundDouble_samples :
    roundDouble (7 / 8) = 7 / 8 ∧
    roundDouble (7 / 8 * 30) = 105 / 4 ∧
    roundDouble (1 / 10) = 3602879701896397 / 36028797018963968 ∧
    roundDouble (roundDouble (1 / 10) * 30) = 3 ∧
    roundDouble (2 / 3) = 6004799503160661 / 9007199254740992 ∧
    roundDouble (roundDouble (2 / 3) * 30) = 20 ∧
    roundDouble (9007199254740993) = 9007199254740992 := by
  decide!

/-- Five ticks with `Math.random()` returning 0.6666666666666666 add exactly 20
each, so the fifth reaches 100, is clamped, and clears the interval. -/
theorem five_ticks_of_two_thirds :
    (run (uploadFiles (initialState []) [⟨"in.docx", 3⟩])
      ((List.replicate 5 (roundDouble (2 / 3))).map (Event.tick 0))).uploads
        = [{ progress := 100, intervalActive := false, settled := false }] ∧
    (run (uploadFiles (initialState []) [⟨"in.docx", 3⟩])
      ((List.replicate 4 (roundDouble (2 / 3))).map (Event.tick 0))).uploads
        = [{ progress := 80, intervalActive := true, settled := false }] := by
  decide!

/-- A tick of a running timer whose rounded total reaches 100 clamps the
progress to 100, clears the interval and writes 100 to the bar. -/
theorem tick_clamps (s : State) (k : Nat) (r : ℚ) (u : Upload)
    (hk : s.uploads[k]? = some u) (ha : u.intervalActive = true)
    (hp : 100 ≤ roundDouble (u.progress + roundDouble (r * 30))) :
    (step s (Event.tick k r)).uploads[k]?
      = some { u with progress := 100, intervalActive := false } ∧
    (step s (Event.tick k r)).progressBarWidth = 100 := by
  simp [step, hk, ha, intervalCallback, hp, getElem?_set_of_some _ hk]

/-- A tick of a running timer whose rounded total stays below 100 stores the
total, keeps the timer, and writes the total to the bar. -/
theorem tick_advances (s : State) (k : Nat) (r : ℚ) (u : Upload)
    (hk : s.uploads[k]? = some u) (ha : u.intervalActive = true)
    (hp : roundDouble (u.progress + roundDouble (r * 30)) < 100) :
    (step s (Event.tick k r)).uploads[k]?
      = some { u with progress := roundDouble (u.progress + roundDouble (r * 30)) } ∧
    (step s (Event.tick k r)).progressBarWidth
      = roundDouble (u.progress + roundDouble (r * 30)) := by
  simp [step, hk, ha, intervalCallback, not_le.mpr hp, getElem?_set_of_some _ hk]

/-- Ticks of its own timer leave an upload pending. -/
theorem ticks_keep_pending (rs : List ℚ) (s : State) (k : Nat) (u : Upload)
    (hk : s.uploads[k]? = some u) (hu : u.settled = false) :
    ∃ v, (run s (rs.map (Event.tick k))).uploads[k]? = some v ∧ v.settled = false := by
  induction rs generalizing s u with
  | nil => exact ⟨u, hk, hu⟩
  | cons r rest ih =>
    rw [List.map_cons, run_cons]
    by_cases ha : u.intervalActive = true
    · by_cases hp : 100 ≤ roundDouble (u.progress + roundDouble (r * 30))
      · exact ih _ _ (tick_clamps s k r u hk ha hp).1 hu
      · exact ih _ _ (tick_advances s k r u hk ha (not_le.mp hp)).1 hu
    · exact ih _ u (by simp [step, hk, ha]) hu

/-- The `then` or `catch` callback of a pending upload clears its interval. -/
theorem terminal_clears (s : State) (k : Nat) (u : Upload) (term : Event)
    (hk : s.uploads[k]? = some u) (hu : u.settled = false)
    (hterm : (∃ data, term = Event.resolve k data) ∨ term = Event.reject k) :
    ∃ v, (step s term).uploads[k]? = some v ∧ v.intervalActive = false := by
  rcases hterm with ⟨data, rfl⟩ | rfl
  · exact ⟨_, by simp [step, hk, hu, thenCallback, getElem?_set_of_some _ hk]; rfl, rfl⟩
  · exact ⟨_, by
      simp [step, hk, hu, catchCallback, showNotification, getElem?_set_of_some _ hk]; rfl, rfl⟩

/-- Ticks of the timer of a pending upload, each with `Math.random()` at least
zero, keep its progress in `[0, 100]`; the timer is running exactly while the
progress is below 100, and once a tick has run the bar shows the progress. -/
theorem ticks_progress_invariant (rs : List ℚ) (s : State) (k : Nat) (u : Upload)
    (hk : s.uploads[k]? = some u) (hu : u.settled = false) (h0 : 0 ≤ u.progress)
    (hinv : (u.intervalActive = true ∧ u.progress < 100) ∨
      (u.intervalActive = false ∧ u.progress = 100))
    (hbar : s.progressBarWidth = u.progress ∨ (u.intervalActive = true ∧ rs ≠ []))
    (hrs : ∀ r ∈ rs, 0 ≤ r ∧ r < 1) :
    ∃ v, (run s (rs.map (Event.tick k))).uploads[k]? = some v ∧ v.settled = false ∧
      0 ≤ v.progress ∧ v.progress ≤ 100 ∧
      ((v.intervalActive = true ∧ v.progress < 100) ∨
        (v.intervalActive = false ∧ v.progress = 100)) ∧
      (run s (rs.map (Event.tick k))).progressBarWidth = v.progress := by
  induction rs generalizing s u with
  | nil =>
    rcases hbar with hbar | ⟨_, hne⟩
    · refine ⟨u, hk, hu, h0, ?_, hinv, hbar⟩
      rcases hinv with ⟨_, h⟩ | ⟨_, h⟩
      · exact le_of_lt h
      · exact le_of_eq h
    · exact absurd rfl hne
  | cons r rest ih =>
    rw [List.map_cons, run_cons]
    have hr : 0 ≤ r := (hrs r (List.mem_cons_self _ _)).1
    have hrest : ∀ x ∈ rest, 0 ≤ x ∧ x < 1 := fun x hx => hrs x (List.mem_cons_of_mem _ hx)
    have hsum : 0 ≤ roundDouble (u.progress + roundDouble (r * 30)) :=
      roundDouble_nonneg _
        (add_nonneg h0 (roundDouble_nonneg _ (mul_nonneg hr (by norm_num))))
    by_cases ha : u.intervalActive = true
    · by_cases hp : 100 ≤ roundDouble (u.progress + roundDouble (r * 30))
      · obtain ⟨h1, h2⟩ := tick_clamps s k r u hk ha hp
        exact ih _ { u with progress := 100, intervalActive := false } h1 hu
          (by norm_num) (Or.inr ⟨rfl, rfl⟩) (Or.inl h2) hrest
      · obtain ⟨h1, h2⟩ := tick_advances s k r u hk ha (not_le.mp hp)
        exact ih _ { u with progress := roundDouble (u.progress + roundDouble (r * 30)) }
          h1 hu hsum (Or.inl ⟨ha, not_le.mp hp⟩) (Or.inl h2) hrest
    · have hbar2 : s.progressBarWidth = u.progress := by
        rcases hbar with hbar | ⟨hact, _⟩
        · exact hbar
        · exact absurd hact ha
      have hstep : step s (Event.tick k r) = s := by simp [step, hk, ha]
      rw [hstep]
      exact ih s u hk hu h0 hinv (Or.inl hbar2) hrest

/-- The event loop does not deliver ticks of a cleared interval. -/
theorem step_tick_of_cleared (s : State) (k : Nat) (r : ℚ) (u : Upload)
    (hk : s.uploads[k]? = some u) (hu : u.intervalActive = false) :
    step s (Event.tick k r) = s := by
  simp [step, hk, hu]

/-! ## File intake -/

/-- C1: with no tool selected (`selectedTool` is `null`), `handleFiles` on any
file list issues no request, starts no upload closure (hence no progress
timer), triggers no download, and shows exactly one notification, of type
error, with the text "Please select a tool first". -/
theorem handleFiles_no_tool (s : State) (files : List File)
    (h : s.selectedTool = none) :
    (handleFiles s files).requests = s.requests ∧
    (handleFiles s files).uploads = s.uploads ∧
    (handleFiles s files).downloads = s.downloads ∧
    (handleFiles s files).notices
      = s.notices ++ [(JSValue.str "Please select a tool first", "error")] ∧
    (handleFiles s files).notification.textContent = "Please select a tool first" ∧
    (handleFiles s files).notification.iconClassName = "fas fa-exclamation-circle" ∧
    (handleFiles s files).notification.background
      = "linear-gradient(135deg, #ff6b6b, #e63946)" ∧
    "show" ∈ (handleFiles s files).notification.classList ∧
    (handleFiles s files).timeouts = s.timeouts ++ [Timeout.hideNotification] := by
  simp [handleFiles, h, noToolSelected, showNotification, nullableDOMString, jsToString,
    mem_classListAdd]

theorem handleFiles_no_tool_witness :
    (initialState []).selectedTool = none ∧
    (handleFiles (initialState []) [⟨"a.docx", 10⟩]).requests = [] ∧
    (handleFiles (initialState []) [⟨"a.docx", 10⟩]).notices
      = [(JSValue.str "Please select a tool first", "error")] :=
  ⟨rfl,
   (handleFiles_no_tool (initialState []) [⟨"a.docx", 10⟩] rfl).1,
   (handleFiles_no_tool (initialState []) [⟨"a.docx", 10⟩] rfl).2.2.2.1⟩

/-- C6 as stated fails: with no tool selected, `handleFiles` on the empty file
list shows the "Please select a tool first" notification, so the state changes. -/
theorem handleFiles_empty_no_tool_notifies :
    (initialState []).selectedTool = none ∧
    (handleFiles (initialState []) []).notices
      = [(JSValue.str "Please select a tool first", "error")] ∧
    handleFiles (initialState []) [] ≠ initialState [] := by
  refine ⟨rfl, rfl, ?_⟩
  intro h
  have h2 := congrArg State.notices h
  simp [handleFiles, initialState, noToolSelected, showNotification] at h2

/-- C6 amended: when a tool is selected, `handleFiles` on the empty file list
returns the state unchanged (no request, no notification, no UI change). -/
theorem handleFiles_empty_tool_selected (s : State) (t : String)
    (h : s.selectedTool = some t) (ht : t ≠ "") :
    handleFiles s [] = s := by
  simp [handleFiles, h, noToolSelected, ht]

theorem handleFiles_empty_tool_selected_witness :
    handleFiles { initialState [] with selectedTool := some "pdf-to-word" } []
      = { initialState [] with selectedTool := some "pdf-to-word" } :=
  handleFiles_empty_tool_selected _ "pdf-to-word" rfl (by decide)

/-- C7: for a non-empty file sequence submitted while tool `t` is selected,
`uploadFiles` appends exactly one request to the trace, a POST to "/convert"
whose body has `n + 1` entries: one "files" entry per input file in input
order, then one "tool" entry equal to `t`.  `handleFiles` reaches `uploadFiles`
on such input whenever `t` is not the empty string. -/
theorem uploadFiles_multipart (s : State) (files : List File) (t : String)
    (hfiles : files ≠ []) (h : s.selectedTool = some t) :
    (∃ body : List (String × FormValue),
      (uploadFiles s files).requests
        = s.requests ++ [{ url := "/convert", method := "POST", body := body }] ∧
      body = files.map (fun f => ("files", FormValue.file f)) ++ [("tool", FormValue.text t)] ∧
      body.length = files.length + 1 ∧
      (∀ (i : Nat) (f : File), files[i]? = some f → body[i]? = some ("files", FormValue.file f)) ∧
      body[files.length]? = some ("tool", FormValue.text t)) ∧
    (t ≠ "" → handleFiles s files = uploadFiles s files) := by
  constructor
  · refine ⟨_, ?_, rfl, by simp, ?_, ?_⟩
    · simp [uploadFiles, formData_foldl, h, toolField]
    · intro i f hf
      have hi : i < files.length := by
        by_contra hcon
        have : files[i]? = none := List.getElem?_eq_none (by omega)
        simp [this] at hf
      rw [List.getElem?_append_left (by simpa using hi)]
      simp [hf]
    · rw [List.getElem?_append_right (by simp)]
      simp
  · intro ht
    have hlen : 0 < files.length := List.length_pos.mpr hfiles
    simp [handleFiles, h, noToolSelected, ht, hlen]

theorem uploadFiles_multipart_witness :
    handleFiles { initialState [] with selectedTool := some "merge" }
        [⟨"a.pdf", 1⟩, ⟨"b.pdf", 2⟩]
      = uploadFiles { initialState [] with selectedTool := some "merge" }
        [⟨"a.pdf", 1⟩, ⟨"b.pdf", 2⟩] :=
  (uploadFiles_multipart { initialState [] with selectedTool := some "merge" }
    [⟨"a.pdf", 1⟩, ⟨"b.pdf", 2⟩] "merge" (by decide) rfl).2 (by decide)

/-! ## Tool selection -/

/-- C10 as stated fails: a card whose `data-tool` attribute is the empty string
is ignored by the click listener; the selection stays `null` and no card is
marked selected. -/
theorem toolCardClick_empty_identifier :
    (toolCardClick (initialState [⟨some "", [], "Empty"⟩]) 0).selectedTool = none ∧
    (toolCardClick (initialState [⟨some "", [], "Empty"⟩]) 0).toolCards
      = [⟨some "", [], "Empty"⟩] := by
  constructor <;> rfl

/-- C10 amended: for every tool card and every prior state, if the card's
identifier `t` is a non-empty string, the click listener records `t` as the
selected tool and leaves exactly the clicked card marked selected; if the
identifier is missing or the empty string, the click listener leaves the whole
state as it is. -/
theorem toolCardClick_selects (s : State) (i : Nat) (card : ToolCard)
    (hc : s.toolCards[i]? = some card) :
    (∀ t : String, card.dataTool = some t → t ≠ "" →
      (toolCardClick s i).selectedTool = some t ∧
      (toolCardClick s i).toolCards.length = s.toolCards.length ∧
      ∀ (j : Nat) (c : ToolCard), (toolCardClick s i).toolCards[j]? = some c →
        ("selected" ∈ c.classList ↔ j = i)) ∧
    ((card.dataTool = none ∨ card.dataTool = some "") → toolCardClick s i = s) := by
  have hi : i < s.toolCards.length := by
    by_contra hcon
    have : s.toolCards[i]? = none := List.getElem?_eq_none (by omega)
    simp [this] at hc
  constructor
  · intro t ht hne
    refine ⟨by simp [toolCardClick, hc, ht, hne], by simp [toolCardClick, hc, ht, hne], ?_⟩
    intro j c hj
    simp only [toolCardClick, hc, ht, hne, if_false] at hj
    by_cases hji : j = i
    · subst hji
      rw [List.getElem?_set_eq_of_lt _ (by simpa using hi)] at hj
      cases hj
      simp [mem_classListAdd]
    · rw [List.getElem?_set_ne (Ne.symm hji)] at hj
      simp only [List.getElem?_map, Option.map_eq_some'] at hj
      obtain ⟨c0, _, rfl⟩ := hj
      simp [hji, not_mem_classListRemove]
  · rintro (hnone | hempty)
    · simp [toolCardClick, hc, hnone]
    · simp [toolCardClick, hc, hempty]

theorem toolCardClick_selects_witness :
    (toolCardClick (initialState [⟨some "pdf", ["tool-card", "selected"], "PDF"⟩,
        ⟨some "jpg", ["tool-card"], "JPG"⟩]) 1).selectedTool = some "jpg" :=
  ((toolCardClick_selects (initialState [⟨some "pdf", ["tool-card", "selected"], "PDF"⟩,
        ⟨some "jpg", ["tool-card"], "JPG"⟩]) 1 ⟨some "jpg", ["tool-card"], "JPG"⟩
      rfl).1 "jpg" rfl (by decide)).1

/-! ## Result handling -/

/-- C2: for a response object whose `success` is `true`, `download_url` is the
string `u` and `filename` is the string `f`, delivering it to a pending upload
and letting the display-delay timer fire triggers exactly one download, with
link target `u` and save name `f`, and calls `showNotification` exactly once,
with type success: the notification element then carries the success text,
the success icon and background and the class `show`, and its hide timer is
the only timer left from this exchange.  No error notification is shown and
nothing is thrown. -/
theorem success_response_downloads (s : State) (k : Nat) (up : Upload)
    (fields : List (String × JSValue)) (u f : String)
    (hk : s.uploads[k]? = some up) (hpending : up.settled = false)
    (hs : fields.lookup "success" = some (.bool true))
    (hu : fields.lookup "download_url" = some (.str u))
    (hf : fields.lookup "filename" = some (.str f)) :
    (step (step s (.resolve k (.object fields))) (.timeout s.timeouts.length)).downloads
      = s.downloads ++ [{ href := u, download := f }] ∧
    (step (step s (.resolve k (.object fields))) (.timeout s.timeouts.length)).notices
      = s.notices ++ [(JSValue.str "File converted successfully!", "success")] ∧
    (step (step s (.resolve k (.object fields))) (.timeout s.timeouts.length)).uncaughtErrors
      = s.uncaughtErrors ∧
    (step (step s (.resolve k (.object fields)))
      (.timeout s.timeouts.length)).notification.textContent
      = "File converted successfully!" ∧
    (step (step s (.resolve k (.object fields)))
      (.timeout s.timeouts.length)).notification.iconClassName = "fas fa-check-circle" ∧
    (step (step s (.resolve k (.object fields)))
      (.timeout s.timeouts.length)).notification.background
      = "linear-gradient(135deg, #00b09b, #96c93d)" ∧
    "show" ∈ (step (step s (.resolve k (.object fields)))
      (.timeout s.timeouts.length)).notification.classList ∧
    (step (step s (.resolve k (.object fields))) (.timeout s.timeouts.length)).timeouts
      = s.timeouts ++ [Timeout.hideNotification] := by
  rw [step_resolve_timeout s k up _ hk hpending]
  simp [displayDelayCallback, getProp, hs, hu, hf, JSValue.truthy, showNotification,
    nullableDOMString, jsToString, mem_classListAdd]

theorem success_response_downloads_witness :
    (step (step (uploadFiles (initialState []) [⟨"in.docx", 3⟩])
        (.resolve 0 (.object [("success", .bool true), ("download_url", .str "/files/out.pdf"),
          ("filename", .str "out.pdf")])))
      (.timeout 0)).downloads
      = [{ href := "/files/out.pdf", download := "out.pdf" }] :=
  (success_response_downloads (uploadFiles (initialState []) [⟨"in.docx", 3⟩]) 0
    ⟨0, true, false⟩
    [("success", .bool true), ("download_url", .str "/files/out.pdf"),
      ("filename", .str "out.pdf")] "/files/out.pdf" "out.pdf" rfl rfl rfl rfl rfl).1

/-- C3: for a response object whose `success` is `false` and whose `error` is
the string `e`, delivering it to a pending upload and letting the display-delay
timer fire calls `showNotification` exactly once, with type error and a text
that contains `e`: the notification element then carries that text, the error
icon and background and the class `show`.  No download is triggered. -/
theorem failure_response_shows_error (s : State) (k : Nat) (up : Upload)
    (fields : List (String × JSValue)) (e : String)
    (hk : s.uploads[k]? = some up) (hpending : up.settled = false)
    (hs : fields.lookup "success" = some (.bool false))
    (he : fields.lookup "error" = some (.str e)) :
    (∃ pre post : String,
      (step (step s (.resolve k (.object fields))) (.timeout s.timeouts.length)).notices
        = s.notices ++ [(JSValue.str (pre ++ e ++ post), "error")] ∧
      (step (step s (.resolve k (.object fields)))
        (.timeout s.timeouts.length)).notification.textContent = pre ++ e ++ post) ∧
    (step (step s (.resolve k (.object fields))) (.timeout s.timeouts.length)).downloads
      = s.downloads ∧
    (step (step s (.resolve k (.object fields)))
      (.timeout s.timeouts.length)).notification.iconClassName
      = "fas fa-exclamation-circle" ∧
    (step (step s (.resolve k (.object fields)))
      (.timeout s.timeouts.length)).notification.background
      = "linear-gradient(135deg, #ff6b6b, #e63946)" ∧
    "show" ∈ (step (step s (.resolve k (.object fields)))
      (.timeout s.timeouts.length)).notification.classList ∧
    (step (step s (.resolve k (.object fields))) (.timeout s.timeouts.length)).timeouts
      = s.timeouts ++ [Timeout.hideNotification] := by
  rw [step_resolve_timeout s k up _ hk hpending]
  by_cases hempty : e = ""
  · subst hempty
    refine ⟨⟨"Conversion failed", "", ?_, ?_⟩, ?_, ?_, ?_, ?_, ?_⟩ <;>
      simp [displayDelayCallback, getProp, hs, he, JSValue.truthy, showNotification, jsOr,
        nullableDOMString, jsToString, mem_classListAdd]
  · refine ⟨⟨"", "", ?_, ?_⟩, ?_, ?_, ?_, ?_, ?_⟩ <;>
      simp [displayDelayCallback, getProp, hs, he, JSValue.truthy, showNotification, jsOr,
        hempty, nullableDOMString, jsToString, mem_classListAdd]

theorem failure_response_shows_error_witness :
    (step (step (uploadFiles (initialState []) [⟨"in.docx", 3⟩])
        (.resolve 0 (.object [("success", .bool false), ("error", .str "bad format")])))
      (.timeout 0)).downloads = [] :=
  (failure_response_shows_error (uploadFiles (initialState []) [⟨"in.docx", 3⟩]) 0
    ⟨0, true, false⟩ [("success", .bool false), ("error", .str "bad format")] "bad format"
    rfl rfl rfl rfl).2.1

/-- C5: for a response object whose `success` is `false` and that has no
`error` property, delivering it to a pending upload and letting the
display-delay timer fire calls `showNotification` exactly once, with type error
and the text "Conversion failed": the notification element then carries that
text, the error icon and background and the class `show`.  No download is
triggered. -/
theorem failure_response_fallback (s : State) (k : Nat) (up : Upload)
    (fields : List (String × JSValue))
    (hk : s.uploads[k]? = some up) (hpending : up.settled = false)
    (hs : fields.lookup "success" = some (.bool false))
    (he : fields.lookup "error" = none) :
    (step (step s (.resolve k (.object fields))) (.timeout s.timeouts.length)).notices
      = s.notices ++ [(JSValue.str "Conversion failed", "error")] ∧
    (step (step s (.resolve k (.object fields))) (.timeout s.timeouts.length)).downloads
      = s.downloads ∧
    (step (step s (.resolve k (.object fields)))
      (.timeout s.timeouts.length)).notification.textContent = "Conversion failed" ∧
    (step (step s (.resolve k (.object fields)))
      (.timeout s.timeouts.length)).notification.iconClassName
      = "fas fa-exclamation-circle" ∧
    (step (step s (.resolve k (.object fields)))
      (.timeout s.timeouts.length)).notification.background
      = "linear-gradient(135deg, #ff6b6b, #e63946)" ∧
    "show" ∈ (step (step s (.resolve k (.object fields)))
      (.timeout s.timeouts.length)).notification.classList ∧
    (step (step s (.resolve k (.object fields))) (.timeout s.timeouts.length)).timeouts
      = s.timeouts ++ [Timeout.hideNotification] := by
  rw [step_resolve_timeout s k up _ hk hpending]
  simp [displayDelayCallback, getProp, hs, he, JSValue.truthy, showNotification, jsOr,
    nullableDOMString, jsToString, mem_classListAdd]

theorem failure_response_fallback_witness :
    (step (step (uploadFiles (initialState []) [⟨"in.docx", 3⟩])
        (.resolve 0 (.object [("success", .bool false)])))
      (.timeout 0)).notices = [(JSValue.str "Conversion failed", "error")] :=
  (failure_response_fallback (uploadFiles (initialState []) [⟨"in.docx", 3⟩]) 0
    ⟨0, true, false⟩ [("success", .bool false)] rfl rfl rfl rfl).1

/-- C4: when the request of a pending upload is rejected, the `catch` callback
calls `showNotification` exactly once, with type error: the notification
element then carries the text "An error occurred", the error icon and
background and the class `show`.  It triggers no download, hides the loading
overlay and the progress container, resets the bar width to 0%, stops the
progress timer, and raises no uncaught error (it logs the failure). -/
theorem rejected_request_resets (s : State) (k : Nat) (up : Upload)
    (hk : s.uploads[k]? = some up) (hpending : up.settled = false) :
    (step s (.reject k)).notices
      = s.notices ++ [(JSValue.str "An error occurred", "error")] ∧
    (step s (.reject k)).downloads = s.downloads ∧
    (step s (.reject k)).loadingOverlayDisplay = "none" ∧
    (step s (.reject k)).progressContainerDisplay = "none" ∧
    (step s (.reject k)).progressBarWidth = 0 ∧
    (step s (.reject k)).uncaughtErrors = s.uncaughtErrors ∧
    (step s (.reject k)).consoleErrors = s.consoleErrors + 1 ∧
    (step s (.reject k)).uploads[k]?
      = some { up with intervalActive := false, settled := true } ∧
    (step s (.reject k)).notification.textContent = "An error occurred" ∧
    (step s (.reject k)).notification.iconClassName = "fas fa-exclamation-circle" ∧
    (step s (.reject k)).notification.background
      = "linear-gradient(135deg, #ff6b6b, #e63946)" ∧
    "show" ∈ (step s (.reject k)).notification.classList ∧
    (step s (.reject k)).timeouts = s.timeouts ++ [Timeout.hideNotification] ∧
    (step s (.reject k)).requests = s.requests := by
  simp [step, hk, hpending, catchCallback, showNotification, getElem?_set_of_some _ hk,
    nullableDOMString, jsToString, mem_classListAdd]

theorem rejected_request_resets_witness :
    (step (uploadFiles (initialState []) [⟨"in.docx", 3⟩]) (.reject 0)).notices
      = [(JSValue.str "An error occurred", "error")] :=
  (rejected_request_resets (uploadFiles (initialState []) [⟨"in.docx", 3⟩]) 0
    ⟨0, true, false⟩ rfl rfl).1

/-! ## Progress timer -/

/-- The upload closure created by `uploadFiles` is pending, at progress 0, with
its timer running. -/
theorem uploadFiles_new_upload (s : State) (files : List File) :
    (uploadFiles s files).uploads[s.uploads.length]?
      = some { progress := 0, intervalActive := true, settled := false } := by
  simp [uploadFiles, getElem?_append_length]

/-- C8: start a submission, deliver any number of ticks of its timer, then one
terminal event (a response, successful or not, or a rejection), then any
further events.  In the state reached the timer of that submission is
cancelled, and a later tick of it changes nothing (neither the progress value
nor the bar width). -/
theorem timer_cancelled_after_terminal (s : State) (files : List File) (rs : List ℚ)
    (term : Event) (post : List Event) (r : ℚ)
    (hterm : (∃ data, term = Event.resolve s.uploads.length data) ∨
      term = Event.reject s.uploads.length) :
    (∃ u, (run (uploadFiles s files)
        (rs.map (Event.tick s.uploads.length) ++ term :: post)).uploads[s.uploads.length]?
          = some u ∧ u.intervalActive = false) ∧
    step (run (uploadFiles s files) (rs.map (Event.tick s.uploads.length) ++ term :: post))
        (Event.tick s.uploads.length r)
      = run (uploadFiles s files) (rs.map (Event.tick s.uploads.length) ++ term :: post) := by
  obtain ⟨v, hv, hv2⟩ := ticks_keep_pending rs (uploadFiles s files) s.uploads.length _
    (uploadFiles_new_upload s files) rfl
  obtain ⟨w, hw, hw2⟩ := terminal_clears _ s.uploads.length v term hv hv2 hterm
  obtain ⟨x, hx, hx2⟩ := run_keeps_cleared post _ s.uploads.length w hw hw2
  rw [run_append, run_cons]
  exact ⟨⟨x, hx, hx2⟩, step_tick_of_cleared _ _ r x hx hx2⟩

theorem timer_cancelled_after_terminal_witness :
    step (run (uploadFiles (initialState []) [⟨"in.docx", 3⟩])
        ([(1 / 2 : ℚ)].map (Event.tick 0) ++ Event.reject 0 :: [Event.timeout 0]))
        (Event.tick 0 (1 / 2))
      = run (uploadFiles (initialState []) [⟨"in.docx", 3⟩])
        ([(1 / 2 : ℚ)].map (Event.tick 0) ++ Event.reject 0 :: [Event.timeout 0]) :=
  (timer_cancelled_after_terminal (initialState []) [⟨"in.docx", 3⟩] [1 / 2]
    (Event.reject 0) [Event.timeout 0] (1 / 2) (Or.inr rfl)).2

/-- C9 as stated fails: four ticks with `Math.random()` returning 0.875 (a
binary64 number; each increment is exactly 26.25) drive the progress to 105,
which the callback clamps to 100, writes to the bar and answers by clearing the
interval, while the request is still outstanding. -/
theorem tick_reaches_full_bar_before_response :
    roundDouble (7 / 8) = 7 / 8 ∧
    (0 ≤ roundDouble (7 / 8 * 30) ∧ roundDouble (7 / 8 * 30) < 30) ∧
    (run (uploadFiles (initialState []) [⟨"in.docx", 3⟩])
      ([(7 / 8 : ℚ), 7 / 8, 7 / 8, 7 / 8].map (Event.tick 0))).progressBarWidth = 100 ∧
    (run (uploadFiles (initialState []) [⟨"in.docx", 3⟩])
      ([(7 / 8 : ℚ), 7 / 8, 7 / 8, 7 / 8].map (Event.tick 0))).uploads
        = [{ progress := 100, intervalActive := false, settled := false }] := by
  decide!

/-- C9 amended: while the request is outstanding, after any sequence of timer
ticks (each with `Math.random()` in `[0, 1)`), the simulated progress lies in
`[0, 100]`; it is below 100 exactly while the timer is still running, and after
at least one tick the bar shows the progress.  A further tick of the running
timer whose rounded total is 100 or more sets progress and bar to exactly 100
and stops the timer; one whose total is below 100 sets both to the total and
keeps the timer.  Delivery of the parsed response sets the bar to 100; a
rejection resets it to 0. -/
theorem ticks_progress_bounded (s : State) (files : List File) (rs : List ℚ)
    (data : ResponseData) (next : ℚ) (hrs : ∀ r ∈ rs, 0 ≤ r ∧ r < 1) :
    (∃ u, (run (uploadFiles s files) (rs.map (Event.tick s.uploads.length))).uploads[
          s.uploads.length]? = some u ∧
      u.settled = false ∧ 0 ≤ u.progress ∧ u.progress ≤ 100 ∧
      ((u.intervalActive = true ∧ u.progress < 100) ∨
        (u.intervalActive = false ∧ u.progress = 100)) ∧
      (rs ≠ [] → (run (uploadFiles s files)
        (rs.map (Event.tick s.uploads.length))).progressBarWidth = u.progress) ∧
      (u.intervalActive = true →
        100 ≤ roundDouble (u.progress + roundDouble (next * 30)) →
        (step (run (uploadFiles s files) (rs.map (Event.tick s.uploads.length)))
            (Event.tick s.uploads.length next)).uploads[s.uploads.length]?
          = some { progress := 100, intervalActive := false, settled := false } ∧
        (step (run (uploadFiles s files) (rs.map (Event.tick s.uploads.length)))
            (Event.tick s.uploads.length next)).progressBarWidth = 100) ∧
      (u.intervalActive = true →
        roundDouble (u.progress + roundDouble (next * 30)) < 100 →
        (step (run (uploadFiles s files) (rs.map (Event.tick s.uploads.length)))
            (Event.tick s.uploads.length next)).uploads[s.uploads.length]?
          = some { progress := roundDouble (u.progress + roundDouble (next * 30))
                   intervalActive := true, settled := false } ∧
        (step (run (uploadFiles s files) (rs.map (Event.tick s.uploads.length)))
            (Event.tick s.uploads.length next)).progressBarWidth
          = roundDouble (u.progress + roundDouble (next * 30)))) ∧
    (step (run (uploadFiles s files) (rs.map (Event.tick s.uploads.length)))
      (Event.resolve s.uploads.length data)).progressBarWidth = 100 ∧
    (step (run (uploadFiles s files) (rs.map (Event.tick s.uploads.length)))
      (Event.reject s.uploads.length)).progressBarWidth = 0 := by
  have hstart := uploadFiles_new_upload s files
  have key : ∃ u, (run (uploadFiles s files)
        (rs.map (Event.tick s.uploads.length))).uploads[s.uploads.length]? = some u ∧
      u.settled = false ∧ 0 ≤ u.progress ∧ u.progress ≤ 100 ∧
      ((u.intervalActive = true ∧ u.progress < 100) ∨
        (u.intervalActive = false ∧ u.progress = 100)) ∧
      (rs ≠ [] → (run (uploadFiles s files)
        (rs.map (Event.tick s.uploads.length))).progressBarWidth = u.progress) := by
    by_cases hne : rs = []
    · subst hne
      exact ⟨_, hstart, rfl, le_refl _, by norm_num, Or.inl ⟨rfl, by norm_num⟩,
        fun h => absurd rfl h⟩
    · obtain ⟨v, hv, h1, h2, h3, h4, h5⟩ :=
        ticks_progress_invariant rs (uploadFiles s files) s.uploads.length _ hstart rfl
          (le_refl _) (Or.inl ⟨rfl, by norm_num⟩) (Or.inr ⟨rfl, hne⟩) hrs
      exact ⟨v, hv, h1, h2, h3, h4, fun _ => h5⟩
  obtain ⟨u, hu, h1, h2, h3, h4, h5⟩ := key
  refine ⟨⟨u, hu, h1, h2, h3, h4, h5, ?_, ?_⟩, ?_, ?_⟩
  · intro ha hp
    obtain ⟨e1, e2⟩ := tick_clamps _ _ next u hu ha hp
    refine ⟨?_, e2⟩
    rw [e1, h1]
  · intro ha hp
    obtain ⟨e1, e2⟩ := tick_advances _ _ next u hu ha hp
    refine ⟨?_, e2⟩
    rw [e1, ← ha, ← h1]
  · simp [step, hu, h1, thenCallback]
  · simp [step, hu, h1, catchCallback, showNotification]

theorem ticks_progress_bounded_witness :
    (step (run (uploadFiles (initialState []) [⟨"in.docx", 3⟩])
        ([(1 / 2 : ℚ)].map (Event.tick 0)))
      (Event.resolve 0 (.object [("success", .bool true)]))).progressBarWidth = 100 :=
  (ticks_progress_bounded (initialState []) [⟨"in.docx", 3⟩] [1 / 2]
    (.object [("success", .bool true)]) (1 / 2) (by
      intro r hr
      simp only [List.mem_singleton] at hr
      subst hr
      norm_num)).2.1

end ProConverter
